import Mathlib

/-!
Verification of the rustman 2D-platformer physics core.

The Rust source (src/plugins/physics.rs, src/plugins/player.rs,
src/plugins/swing.rs, src/components.rs) works on `f32` values.  The
embedding models the purely arithmetic parts over `ℚ` (exact arithmetic;
the source's `f32::NEG_INFINITY` / `f32::INFINITY` sentinels are modelled
by the three-valued type `FVal`), and the trigonometric parts
(slope physics, pendulum integration) over `ℝ` in the `RModel` namespace.
No NaN ever arises in the modelled code paths: the source divides only by
displacement components it has just tested to be nonzero, so the
infinity-extended rationals are an exact model of the control flow.
-/

namespace Rustman

/-- A 2D vector with rational components (models Bevy `Vec2` as used by the
physics code). -/
structure Vec2 where
  x : ℚ
  y : ℚ
deriving DecidableEq

/-- Position component (src/components.rs). -/
structure Position where
  x : ℚ
  y : ℚ
deriving DecidableEq

/-- Velocity component (src/components.rs). -/
structure Velocity where
  x : ℚ
  y : ℚ
deriving DecidableEq

/-- Collider component: axis-aligned box of `width × height` at
`(offset_x, offset_y)` from the position (src/components.rs). -/
structure Collider where
  width : ℚ
  height : ℚ
  offset_x : ℚ
  offset_y : ℚ
deriving DecidableEq

/-- Static level geometry rectangle (src/components.rs). -/
structure LevelGeometry where
  x : ℚ
  y : ℚ
  width : ℚ
  height : ℚ
deriving DecidableEq

/-- Grounded state (src/components.rs). -/
structure GroundedState where
  is_grounded : Bool
  ground_normal : Vec2
deriving DecidableEq

/-- Wall climb state (src/components.rs). -/
structure WallClimbState where
  is_clinging : Bool
  wall_normal : Vec2
deriving DecidableEq

/-- The `Default` impl for `WallClimbState` (src/components.rs lines 125-132). -/
def WallClimbState.defaultState : WallClimbState :=
  { is_clinging := false, wall_normal := ⟨0, 0⟩ }

/-- Player intent component (src/components.rs). -/
structure PlayerIntent where
  move_left : Bool
  move_right : Bool
  jump_pressed : Bool
  jump_just_released : Bool
deriving DecidableEq

/-- Swing state (src/components.rs): anchor point, rope length, angular
velocity, all rational in the attach-time model. -/
structure SwingState where
  anchor_point : Vec2
  rope_length : ℚ
  angular_velocity : ℚ
deriving DecidableEq

/-- Ability tags (src/enums.rs). -/
inductive Ability where
  | HighJump
  | WallClimb
  | Swing
deriving DecidableEq

/-- Ability set (src/components.rs): a `HashSet` in the source, membership
is all the physics code uses, so a list with membership test is a faithful
model. -/
structure AbilitySet where
  abilities : List Ability
deriving DecidableEq

/-- `AbilitySet::has` (src/components.rs). -/
def AbilitySet.has (s : AbilitySet) (a : Ability) : Bool :=
  s.abilities.contains a

/-- Physics constants (src/plugins/physics.rs lines 5-9). -/
def GRAVITY : ℚ := 980

/-- Fixed timestep, 1/60 s (src/plugins/physics.rs line 6). -/
def FIXED_TIMESTEP : ℚ := 1 / 60

/-- Ground check distance (src/plugins/physics.rs line 7). -/
def GROUND_CHECK_EPSILON : ℚ := 2

/-- Slope friction coefficient (src/plugins/physics.rs line 8). -/
def SLOPE_FRICTION : ℚ := 3 / 10

/-- Minimum slope angle in radians (src/plugins/physics.rs line 9). -/
def MIN_SLOPE_ANGLE : ℚ := 1 / 10

/-- Player constants (src/plugins/player.rs lines 10-15). -/
def MOVE_SPEED : ℚ := 200

/-- Base jump velocity, negative = up (src/plugins/player.rs line 11). -/
def BASE_JUMP_VELOCITY : ℚ := -400

/-- High jump velocity (src/plugins/player.rs line 12). -/
def HIGH_JUMP_VELOCITY : ℚ := -600

/-- Wall climb speed (src/plugins/player.rs line 13). -/
def WALL_CLIMB_SPEED : ℚ := 150

/-- Wall jump horizontal velocity (src/plugins/player.rs line 14). -/
def WALL_JUMP_HORIZONTAL_VELOCITY : ℚ := 250

/-- Wall jump vertical velocity, negative = up (src/plugins/player.rs line 15). -/
def WALL_JUMP_VERTICAL_VELOCITY : ℚ := -450

/-- An `f32` value as used in the swept-AABB routine: every value that
flows through the entry/exit variables is either a finite number or one of
the two infinities (`f32::NEG_INFINITY`, `f32::INFINITY`); NaN never
arises because divisions are guarded by nonzero tests. -/
inductive FVal where
  | negInf : FVal
  | fin : ℚ → FVal
  | posInf : FVal
deriving DecidableEq

/-- Strict `<` comparison matching IEEE `<` on non-NaN floats. -/
def FVal.blt : FVal → FVal → Bool
  | FVal.negInf, FVal.negInf => false
  | FVal.negInf, _ => true
  | FVal.fin a, FVal.fin b => decide (a < b)
  | FVal.fin _, FVal.posInf => true
  | FVal.fin _, FVal.negInf => false
  | FVal.posInf, _ => false

/-- Non-strict comparison: `a ≤ b` iff not `b < a` (valid on non-NaN floats). -/
def FVal.ble (a b : FVal) : Bool := !(FVal.blt b a)

/-- `f32::max` on non-NaN values. -/
def FVal.max (a b : FVal) : FVal := if FVal.blt a b then b else a

/-- `f32::min` on non-NaN values. -/
def FVal.min (a b : FVal) : FVal := if FVal.blt a b then a else b

/-- Division of an extended value by a nonzero finite divisor, matching
IEEE semantics (`±∞ / q` keeps or flips the sign of the infinity).  The
swept-AABB code only ever divides finite values, by divisors it has tested
to be nonzero. -/
def FVal.div : FVal → ℚ → FVal
  | FVal.fin a, q => FVal.fin (a / q)
  | FVal.negInf, q => if q < 0 then FVal.posInf else FVal.negInf
  | FVal.posInf, q => if q < 0 then FVal.negInf else FVal.posInf

/-- The finite value carried by an `FVal`; infinities map to a junk value.
Only applied to values proved finite (`swept_time_fin`). -/
def FVal.toQ : FVal → ℚ
  | FVal.fin q => q
  | _ => 0

/-- Left edge of the entity's AABB (src/plugins/physics.rs line 58). -/
def entityLeft (pos : Position) (col : Collider) : ℚ := pos.x + col.offset_x

/-- Right edge of the entity's AABB (line 59). -/
def entityRight (pos : Position) (col : Collider) : ℚ :=
  entityLeft pos col + col.width

/-- Top edge of the entity's AABB (line 60). -/
def entityTop (pos : Position) (col : Collider) : ℚ := pos.y + col.offset_y

/-- Bottom edge of the entity's AABB (line 61). -/
def entityBottom (pos : Position) (col : Collider) : ℚ :=
  entityTop pos col + col.height

/-- Geometry bounds (lines 64-67). -/
def geoLeft (g : LevelGeometry) : ℚ := g.x

/-- Right edge of the geometry. -/
def geoRight (g : LevelGeometry) : ℚ := g.x + g.width

/-- Top edge of the geometry. -/
def geoTop (g : LevelGeometry) : ℚ := g.y

/-- Bottom edge of the geometry. -/
def geoBottom (g : LevelGeometry) : ℚ := g.y + g.height

/-- `entry_x` (src/plugins/physics.rs lines 73-82). -/
def entryX (pos : Position) (col : Collider) (g : LevelGeometry) (mv : Vec2) : FVal :=
  if 0 < mv.x then FVal.fin (geoLeft g - entityRight pos col)
  else if mv.x < 0 then FVal.fin (geoRight g - entityLeft pos col)
  else FVal.negInf

/-- `exit_x` (lines 73-82). -/
def exitX (pos : Position) (col : Collider) (g : LevelGeometry) (mv : Vec2) : FVal :=
  if 0 < mv.x then FVal.fin (geoRight g - entityLeft pos col)
  else if mv.x < 0 then FVal.fin (geoLeft g - entityRight pos col)
  else FVal.posInf

/-- `entry_y` (lines 87-96). -/
def entryY (pos : Position) (col : Collider) (g : LevelGeometry) (mv : Vec2) : FVal :=
  if 0 < mv.y then FVal.fin (geoTop g - entityBottom pos col)
  else if mv.y < 0 then FVal.fin (geoBottom g - entityTop pos col)
  else FVal.negInf

/-- `exit_y` (lines 87-96). -/
def exitY (pos : Position) (col : Collider) (g : LevelGeometry) (mv : Vec2) : FVal :=
  if 0 < mv.y then FVal.fin (geoBottom g - entityTop pos col)
  else if mv.y < 0 then FVal.fin (geoTop g - entityBottom pos col)
  else FVal.posInf

/-- `entry_time_x` (lines 99-103). -/
def entryTimeX (pos : Position) (col : Collider) (g : LevelGeometry) (mv : Vec2) : FVal :=
  if mv.x ≠ 0 then (entryX pos col g mv).div mv.x else FVal.negInf

/-- `exit_time_x` (lines 104-108). -/
def exitTimeX (pos : Position) (col : Collider) (g : LevelGeometry) (mv : Vec2) : FVal :=
  if mv.x ≠ 0 then (exitX pos col g mv).div mv.x else FVal.posInf

/-- `entry_time_y` (lines 109-113). -/
def entryTimeY (pos : Position) (col : Collider) (g : LevelGeometry) (mv : Vec2) : FVal :=
  if mv.y ≠ 0 then (entryY pos col g mv).div mv.y else FVal.negInf

/-- `exit_time_y` (lines 114-118). -/
def exitTimeY (pos : Position) (col : Collider) (g : LevelGeometry) (mv : Vec2) : FVal :=
  if mv.y ≠ 0 then (exitY pos col g mv).div mv.y else FVal.posInf

/-- `entry_time = entry_time_x.max(entry_time_y)` (line 121). -/
def entryTime (pos : Position) (col : Collider) (g : LevelGeometry) (mv : Vec2) : FVal :=
  (entryTimeX pos col g mv).max (entryTimeY pos col g mv)

/-- `exit_time = exit_time_x.min(exit_time_y)` (line 122). -/
def exitTime (pos : Position) (col : Collider) (g : LevelGeometry) (mv : Vec2) : FVal :=
  (exitTimeX pos col g mv).min (exitTimeY pos col g mv)

/-- Collision normal selection (lines 130-140). -/
def collisionNormal (mv : Vec2) (etx ety : FVal) : Vec2 :=
  if FVal.blt ety etx then
    (if 0 < mv.x then ⟨-1, 0⟩ else ⟨1, 0⟩)
  else if 0 < mv.y then ⟨0, -1⟩
  else ⟨0, 1⟩

/-- Swept AABB collision detection (src/plugins/physics.rs lines 51-143).
Returns the clamped time of impact and the collision normal, or `none`
when the guard `entry_time > exit_time || (entry_time_x < 0 &&
entry_time_y < 0) || entry_time > 1` rejects the sweep. -/
def swept_aabb_collision (pos : Position) (col : Collider) (g : LevelGeometry)
    (mv : Vec2) : Option (FVal × Vec2) :=
  if FVal.blt (exitTime pos col g mv) (entryTime pos col g mv) ||
      (FVal.blt (entryTimeX pos col g mv) (FVal.fin 0) &&
        FVal.blt (entryTimeY pos col g mv) (FVal.fin 0)) ||
      FVal.blt (FVal.fin 1) (entryTime pos col g mv) then
    none
  else
    some ((entryTime pos col g mv).max (FVal.fin 0),
      collisionNormal mv (entryTimeX pos col g mv) (entryTimeY pos col g mv))

/-- The body of the collision loop in `resolve_collisions`
(src/plugins/physics.rs lines 160-168): the accumulator carries
`earliest_time` (initially `1.0`) and `earliest_collision` (initially
`None`); a geometry updates them exactly when its swept time is strictly
below the current `earliest_time`. -/
def collisionFoldStep (pos : Position) (col : Collider) (mv : Vec2)
    (acc : FVal × Option (FVal × Vec2)) (g : LevelGeometry) :
    FVal × Option (FVal × Vec2) :=
  match swept_aabb_collision pos col g mv with
  | some (time, normal) =>
      if FVal.blt time acc.1 then (time, some (time, normal)) else acc
  | none => acc

/-- The earliest-collision search of `resolve_collisions` (lines 156-168). -/
def earliestCollision (pos : Position) (col : Collider) (mv : Vec2)
    (geoms : List LevelGeometry) : Option (FVal × Vec2) :=
  (geoms.foldl (collisionFoldStep pos col mv) (FVal.fin 1, none)).2

/-- One entity's collision-resolution step (src/plugins/physics.rs lines
146-185): move to the earliest collision point and project the velocity,
or move the full displacement when no collision was recorded. -/
def resolveStep (pos : Position) (vel : Velocity) (col : Collider)
    (geoms : List LevelGeometry) (dt : ℚ) : Position × Velocity :=
  let mv : Vec2 := ⟨vel.x * dt, vel.y * dt⟩
  match earliestCollision pos col mv geoms with
  | some (time, normal) =>
      let t := time.toQ
      let dot := vel.x * normal.x + vel.y * normal.y
      (⟨pos.x + vel.x * dt * t, pos.y + vel.y * dt * t⟩,
        ⟨vel.x - dot * normal.x, vel.y - dot * normal.y⟩)
  | none => (⟨pos.x + vel.x * dt, pos.y + vel.y * dt⟩, vel)

/-- The ground-probe displacement `Vec2::new(0.0, GROUND_CHECK_EPSILON)`
(src/plugins/physics.rs line 194). -/
def groundCheckMovement : Vec2 := ⟨0, GROUND_CHECK_EPSILON⟩

/-- The geometry loop of `update_grounded_state` (lines 199-210): the
first geometry whose short downward sweep collides with `time < 1` and a
normal pointing substantially up (`normal.y < -0.5`) grounds the entity
(the loop `break`s there). -/
def findGroundNormal (pos : Position) (col : Collider) :
    List LevelGeometry → Option Vec2
  | [] => none
  | g :: rest =>
      match swept_aabb_collision pos col g groundCheckMovement with
      | some (time, normal) =>
          if FVal.blt time (FVal.fin 1) = true ∧ normal.y < -(1/2 : ℚ) then
            some normal
          else findGroundNormal pos col rest
      | none => findGroundNormal pos col rest

/-- `update_grounded_state` for one entity (src/plugins/physics.rs lines
188-215).  Note the function takes no previous `GroundedState`: both
fields are recomputed from scratch every step. -/
def update_grounded_state (pos : Position) (col : Collider)
    (geoms : List LevelGeometry) : GroundedState :=
  match findGroundNormal pos col geoms with
  | some normal => { is_grounded := true, ground_normal := normal }
  | none => { is_grounded := false, ground_normal := ⟨0, 0⟩ }

/-- `apply_gravity` for one entity (src/plugins/physics.rs lines 38-47).
The source system queries only `(&mut Velocity, &GroundedState)` — it does
not read `WallClimbState`, which is why this embedding has no wall-cling
parameter. -/
def apply_gravity (vel : Velocity) (grounded : GroundedState) (dt : ℚ) : Velocity :=
  if grounded.is_grounded = false then ⟨vel.x, vel.y + GRAVITY * dt⟩ else vel

/-- The wall-continuation probe of `update_wall_cling_state`
(src/plugins/player.rs lines 143-162): sweep 10 pixels up against each
geometry and look for a predominantly horizontal normal on the same side
as the remembered wall normal. -/
def wallContinuesAbove (ws : WallClimbState) (pos : Position) (col : Collider)
    (geoms : List LevelGeometry) : Bool :=
  geoms.any fun g =>
    match swept_aabb_collision pos col g ⟨0, -10⟩ with
    | some (time, normal) =>
        if FVal.blt time (FVal.fin 1) = true ∧ (1/2 : ℚ) < |normal.x| ∧
            ((0 < normal.x ∧ 0 < ws.wall_normal.x) ∨
              (normal.x < 0 ∧ ws.wall_normal.x < 0)) then
          true
        else false
    | none => false

/-- `update_wall_cling_state` for one entity (src/plugins/player.rs lines
117-184).  The source early-returns with the cling flag cleared when the
entity was clinging and the wall does not continue above; otherwise it
recomputes the cling flag from ability, wall detection, groundedness and
input.  `wall_normal` is never assigned. -/
def update_wall_cling_state (intent : PlayerIntent) (abilities : AbilitySet)
    (ws : WallClimbState) (grounded : GroundedState) (pos : Position)
    (col : Collider) (geoms : List LevelGeometry) : WallClimbState :=
  if ws.is_clinging = true ∧ wallContinuesAbove ws pos col geoms = false then
    { ws with is_clinging := false }
  else if abilities.has Ability.WallClimb = true ∧ ws.wall_normal ≠ ⟨0, 0⟩ ∧
      grounded.is_grounded = false then
    { ws with is_clinging :=
        decide ((0 < ws.wall_normal.x ∧ intent.move_left = true) ∨
          (ws.wall_normal.x < 0 ∧ intent.move_right = true)) }
  else
    { ws with is_clinging := false }

/-- `apply_jump_system` for one entity (src/plugins/player.rs lines
68-113): wall jump takes priority and early-returns; otherwise the
grounded jump (ability-gated) and the variable-jump-height cutoff run. -/
def applyJumpStep (intent : PlayerIntent) (vel : Velocity)
    (grounded : GroundedState) (abilities : AbilitySet) (ws : WallClimbState) :
    Velocity × WallClimbState :=
  if ws.is_clinging = true ∧ intent.jump_pressed = true then
    (⟨ws.wall_normal.x * WALL_JUMP_HORIZONTAL_VELOCITY, WALL_JUMP_VERTICAL_VELOCITY⟩,
      { ws with is_clinging := false })
  else
    let v1 : Velocity :=
      if grounded.is_grounded = true ∧ intent.jump_pressed = true then
        (if abilities.has Ability.HighJump = true then ⟨vel.x, HIGH_JUMP_VELOCITY⟩
          else ⟨vel.x, BASE_JUMP_VELOCITY⟩)
      else vel
    let v2 : Velocity :=
      if intent.jump_just_released = true ∧ v1.y < 0 then ⟨v1.x, v1.y * (1/2)⟩
      else v1
    (v2, ws)

/-- `apply_wall_climb_movement_system` for one entity
(src/plugins/player.rs lines 187-206). -/
def applyWallClimbMovement (intent : PlayerIntent) (ws : WallClimbState)
    (vel : Velocity) : Velocity :=
  if ws.is_clinging = true then
    ⟨0, if intent.move_left = true ∨ intent.move_right = true then
      -WALL_CLIMB_SPEED else (0 : ℚ)⟩
  else vel

/-- The two systems that take `&mut WallClimbState` — the only code in the
repository that can assign to a `WallClimbState` (everything else reads
it): `update_wall_cling_state` and `apply_jump_system`, each with
arbitrary values for their other inputs. -/
inductive WallAction where
  | updateCling (intent : PlayerIntent) (abilities : AbilitySet)
      (grounded : GroundedState) (pos : Position) (col : Collider)
      (geoms : List LevelGeometry)
  | jump (intent : PlayerIntent) (vel : Velocity) (grounded : GroundedState)
      (abilities : AbilitySet)

/-- Effect of one wall-state-mutating system on the `WallClimbState`. -/
def applyWallAction (ws : WallClimbState) : WallAction → WallClimbState
  | WallAction.updateCling intent abilities grounded pos col geoms =>
      update_wall_cling_state intent abilities ws grounded pos col geoms
  | WallAction.jump intent vel grounded abilities =>
      (applyJumpStep intent vel grounded abilities ws).2

/-- `attach_to_swing_system` for one entity (src/plugins/swing.rs lines
60-105): the conditions tested are, in source order, the swing ability,
not being grounded, a nearest swing point being present, and the attach
(jump) input; on success a `SwingState` is created whose rope length is
the recorded distance, with angular velocity `0.0`.  `nearest` is the
`(position, distance)` pair the system reads from its `Local`. -/
def attach_to_swing_system (abilities : AbilitySet) (intent : PlayerIntent)
    (grounded : GroundedState) (nearest : Option (Vec2 × ℚ)) :
    Option SwingState :=
  if abilities.has Ability.Swing = false then none
  else if grounded.is_grounded = true then none
  else
    match nearest with
    | some (swing_position, distance) =>
        if intent.jump_pressed = true then
          some ⟨swing_position, distance, 0⟩
        else none
    | none => none

/-- Spec-side definition (for the refinement comparison in C1), following
the spec's words: "whether the entity's rectangle, swept along that
displacement, first touches the target rectangle within the step".  The
entity's closed rectangle, translated by `t · mv` for some `t ∈ [0,1]`,
meets the target's closed rectangle. -/
def sweptTouches (pos : Position) (col : Collider) (g : LevelGeometry)
    (mv : Vec2) : Prop :=
  ∃ t : ℚ, 0 ≤ t ∧ t ≤ 1 ∧
    geoLeft g ≤ entityRight pos col + t * mv.x ∧
    entityLeft pos col + t * mv.x ≤ geoRight g ∧
    geoTop g ≤ entityBottom pos col + t * mv.y ∧
    entityTop pos col + t * mv.y ≤ geoBottom g

namespace RModel

/-- A 2D vector with real components, for the trigonometric systems. -/
structure Vec2 where
  x : ℝ
  y : ℝ

/-- Grounded state with a real-valued normal, for the slope system. -/
structure GroundedState where
  is_grounded : Bool
  ground_normal : Vec2

/-- Swing state with real-valued fields, for the pendulum integration. -/
structure SwingState where
  anchor_point : Vec2
  rope_length : ℝ
  angular_velocity : ℝ

/-- Rust's `f32::atan2`: `y.atan2(x)` is the angle of the point `(x, y)`,
expressed through `Real.arctan` with the usual quadrant corrections (the
signed-zero distinctions of IEEE do not matter on the modelled paths). -/
noncomputable def atan2 (y x : ℝ) : ℝ :=
  if 0 < x then Real.arctan (y / x)
  else if x < 0 ∧ 0 ≤ y then Real.arctan (y / x) + Real.pi
  else if x < 0 then Real.arctan (y / x) - Real.pi
  else if 0 < y then Real.pi / 2
  else if y < 0 then -(Real.pi / 2)
  else 0

/-- `slope_angle = normal.x.atan2(-normal.y)` (src/plugins/physics.rs
line 231). -/
noncomputable def slopeAngle (normal : Vec2) : ℝ := atan2 normal.x (-normal.y)

/-- `apply_slope_physics` for one entity (src/plugins/physics.rs lines
218-256): skip when airborne or when the slope angle is below
`MIN_SLOPE_ANGLE`; otherwise add the sliding acceleration `GRAVITY *
sin(angle)` along the slope tangent, then the friction term, each scaled
by the timestep. -/
noncomputable def apply_slope_physics (vel : Vec2) (grounded : GroundedState)
    (dt : ℝ) : Vec2 :=
  if grounded.is_grounded = false then vel
  else
    let normal := grounded.ground_normal
    let slope_angle := slopeAngle normal
    if |slope_angle| < (1/10 : ℝ) then vel
    else
      let sliding_acceleration := (980 : ℝ) * Real.sin slope_angle
      let dir : Vec2 := ⟨-normal.y, normal.x⟩
      let v1 : Vec2 := ⟨vel.x + sliding_acceleration * dir.x * dt,
        vel.y + sliding_acceleration * dir.y * dt⟩
      let velocity_along_slope := v1.x * dir.x + v1.y * dir.y
      let friction_force := -velocity_along_slope * (3/10 : ℝ)
      ⟨v1.x + friction_force * dir.x * dt, v1.y + friction_force * dir.y * dt⟩

/-- `SWING_DAMPING` (src/plugins/swing.rs line 8). -/
noncomputable def SWING_DAMPING : ℝ := 98 / 100

/-- `SWING_INPUT_TORQUE` (src/plugins/swing.rs line 9). -/
noncomputable def SWING_INPUT_TORQUE : ℝ := 2

/-- The swing angle `dy.atan2(dx)` of `update_swing_physics_system`
(src/plugins/swing.rs lines 116-118). -/
noncomputable def swingAngle (pos : Vec2) (s : SwingState) : ℝ :=
  atan2 (pos.y - s.anchor_point.y) (pos.x - s.anchor_point.x)

/-- One entity's pendulum integration step, `update_swing_physics_system`
(src/plugins/swing.rs lines 108-147): gravity torque, player torque,
multiplicative damping, angle advance, position on the arc, tangential
velocity.  Returns (new position, new velocity, new swing state). -/
noncomputable def update_swing_physics_system (pos : Vec2) (s : SwingState)
    (input : Rustman.PlayerIntent) (dt : ℝ) : Vec2 × Vec2 × SwingState :=
  let angle := swingAngle pos s
  let angular_acceleration := ((980 : ℝ) / s.rope_length) * Real.sin angle
  let w1 := s.angular_velocity + angular_acceleration * dt
  let w2 := if input.move_left = true then w1 - SWING_INPUT_TORQUE * dt else w1
  let w3 := if input.move_right = true then w2 + SWING_INPUT_TORQUE * dt else w2
  let w4 := w3 * SWING_DAMPING
  let new_angle := angle + w4 * dt
  (⟨s.anchor_point.x + s.rope_length * Real.cos new_angle,
      s.anchor_point.y + s.rope_length * Real.sin new_angle⟩,
    ⟨-s.rope_length * w4 * Real.sin new_angle,
      s.rope_length * w4 * Real.cos new_angle⟩,
    { s with angular_velocity := w4 })

end RModel

theorem FVal.blt_irrefl (a : FVal) : FVal.blt a a = false := by
  cases a <;> simp [FVal.blt]

theorem FVal.ble_refl (a : FVal) : FVal.ble a a = true := by
  simp [FVal.ble, FVal.blt_irrefl]

theorem FVal.ble_trans {a b c : FVal} (h1 : FVal.ble a b = true)
    (h2 : FVal.ble b c = true) : FVal.ble a c = true := by
  cases a <;> cases b <;> cases c <;>
    simp_all [FVal.ble, FVal.blt] <;> linarith

theorem FVal.ble_of_blt {a b : FVal} (h : FVal.blt a b = true) :
    FVal.ble a b = true := by
  cases a <;> cases b <;> simp_all [FVal.ble, FVal.blt] <;> linarith

theorem FVal.ble_of_not_blt {a b : FVal} (h : FVal.blt b a = false) :
    FVal.ble a b = true := by
  simp [FVal.ble, h]

theorem FVal.eq_of_ble_ble {a b : FVal} (h1 : FVal.ble a b = true)
    (h2 : FVal.ble b a = true) : a = b := by
  cases a <;> cases b <;> simp_all [FVal.ble, FVal.blt] <;> linarith

theorem FVal.max_cases (a b : FVal) : FVal.max a b = a ∨ FVal.max a b = b := by
  unfold FVal.max
  split <;> simp

/-- On every code path, `entry_time_x` is finite or `-∞` (never `+∞`):
the division only runs when `movement.x ≠ 0`, and then `entry_x` is
finite. -/
theorem entryTimeX_shape (pos : Position) (col : Collider) (g : LevelGeometry)
    (mv : Vec2) :
    entryTimeX pos col g mv = FVal.negInf ∨
      ∃ q, entryTimeX pos col g mv = FVal.fin q := by
  rcases lt_trichotomy mv.x 0 with h | h | h
  · right
    exact ⟨(geoRight g - entityLeft pos col) / mv.x, by
      simp [entryTimeX, entryX, FVal.div, h, h.ne, not_lt.mpr h.le]⟩
  · left
    simp [entryTimeX, h]
  · right
    exact ⟨(geoLeft g - entityRight pos col) / mv.x, by
      simp [entryTimeX, entryX, FVal.div, h, h.ne', not_lt.mpr h.le]⟩

/-- Same shape fact for `entry_time_y`. -/
theorem entryTimeY_shape (pos : Position) (col : Collider) (g : LevelGeometry)
    (mv : Vec2) :
    entryTimeY pos col g mv = FVal.negInf ∨
      ∃ q, entryTimeY pos col g mv = FVal.fin q := by
  rcases lt_trichotomy mv.y 0 with h | h | h
  · right
    exact ⟨(geoBottom g - entityTop pos col) / mv.y, by
      simp [entryTimeY, entryY, FVal.div, h, h.ne, not_lt.mpr h.le]⟩
  · left
    simp [entryTimeY, h]
  · right
    exact ⟨(geoTop g - entityBottom pos col) / mv.y, by
      simp [entryTimeY, entryY, FVal.div, h, h.ne', not_lt.mpr h.le]⟩

/-- `entry_time` is finite or `-∞`. -/
theorem entryTime_shape (pos : Position) (col : Collider) (g : LevelGeometry)
    (mv : Vec2) :
    entryTime pos col g mv = FVal.negInf ∨
      ∃ q, entryTime pos col g mv = FVal.fin q := by
  have hx := entryTimeX_shape pos col g mv
  have hy := entryTimeY_shape pos col g mv
  have hm := FVal.max_cases (entryTimeX pos col g mv) (entryTimeY pos col g mv)
  unfold entryTime
  rcases hm with hm | hm <;> rw [hm] <;> tauto

/-- Unfolding lemma: a successful sweep means the rejection guard is
false, the returned time is the clamped entry time and the returned
normal is `collisionNormal`. -/
theorem swept_some_elim {pos : Position} {col : Collider} {g : LevelGeometry}
    {mv : Vec2} {t : FVal} {n : Vec2}
    (h : swept_aabb_collision pos col g mv = some (t, n)) :
    t = (entryTime pos col g mv).max (FVal.fin 0) ∧
      n = collisionNormal mv (entryTimeX pos col g mv) (entryTimeY pos col g mv) ∧
      (FVal.blt (exitTime pos col g mv) (entryTime pos col g mv) ||
        (FVal.blt (entryTimeX pos col g mv) (FVal.fin 0) &&
          FVal.blt (entryTimeY pos col g mv) (FVal.fin 0)) ||
        FVal.blt (FVal.fin 1) (entryTime pos col g mv)) = false := by
  unfold swept_aabb_collision at h
  split at h
  · exact absurd h (by simp)
  · next hguard =>
    refine ⟨?_, ?_, by simpa using hguard⟩ <;>
      · injection h with h
        injection h with h1 h2
        simp_all

/-- The time of a reported collision is a finite rational in `[0, 1]`. -/
theorem swept_time_mem {pos : Position} {col : Collider} {g : LevelGeometry}
    {mv : Vec2} {t : FVal} {n : Vec2}
    (h : swept_aabb_collision pos col g mv = some (t, n)) :
    ∃ q : ℚ, t = FVal.fin q ∧ 0 ≤ q ∧ q ≤ 1 := by
  obtain ⟨ht, -, hguard⟩ := swept_some_elim h
  have hle : FVal.blt (FVal.fin 1) (entryTime pos col g mv) = false := by
    rcases Bool.or_eq_false_iff.mp hguard with ⟨-, h3⟩
    exact h3
  rcases entryTime_shape pos col g mv with hsh | ⟨q, hsh⟩
  · refine ⟨0, ?_, le_refl 0, by norm_num⟩
    rw [ht, hsh]
    simp [FVal.max, FVal.blt]
  · rw [hsh] at hle ht
    have hq1 : q ≤ 1 := by
      by_contra hq
      simp [FVal.blt] at hle
      exact hq (by linarith [hle])
    by_cases hq0 : q < 0
    · refine ⟨0, ?_, le_refl 0, by norm_num⟩
      rw [ht]
      simp [FVal.max, FVal.blt, hq0]
    · refine ⟨q, ?_, not_lt.mp hq0, hq1⟩
      rw [ht]
      simp [FVal.max, FVal.blt, hq0]

/-- The normal of a reported collision is one of the four cardinal unit
vectors. -/
theorem swept_normal_cases {pos : Position} {col : Collider}
    {g : LevelGeometry} {mv : Vec2} {t : FVal} {n : Vec2}
    (h : swept_aabb_collision pos col g mv = some (t, n)) :
    n = ⟨-1, 0⟩ ∨ n = ⟨1, 0⟩ ∨ n = ⟨0, -1⟩ ∨ n = ⟨0, 1⟩ := by
  obtain ⟨-, hn, -⟩ := swept_some_elim h
  rw [hn]
  unfold collisionNormal
  split_ifs <;> simp

theorem FVal.blt_trans {a b c : FVal} (h1 : FVal.blt a b = true)
    (h2 : FVal.blt b c = true) : FVal.blt a c = true := by
  cases a <;> cases b <;> cases c <;>
    simp_all [FVal.blt] <;> linarith

/-- C1 (what holds of `swept_aabb_collision`): a collision is reported
exactly when entry time ≤ exit time, at least one axis entry time is
non-negative, and entry time ≤ 1; and every reported collision carries a
time of impact in `[0, 1]` and one of the four cardinal unit normals.
(The geometric "first touches" reading of the claim is refuted separately
by `C1_counterexample`.) -/
theorem C1_swept_guard_and_outputs (pos : Position) (col : Collider)
    (g : LevelGeometry) (mv : Vec2) :
    ((swept_aabb_collision pos col g mv).isSome = true ↔
      (FVal.ble (entryTime pos col g mv) (exitTime pos col g mv) = true ∧
        (FVal.ble (FVal.fin 0) (entryTimeX pos col g mv) = true ∨
          FVal.ble (FVal.fin 0) (entryTimeY pos col g mv) = true) ∧
        FVal.ble (entryTime pos col g mv) (FVal.fin 1) = true)) ∧
    (∀ t n, swept_aabb_collision pos col g mv = some (t, n) →
      (∃ q : ℚ, t = FVal.fin q ∧ 0 ≤ q ∧ q ≤ 1) ∧
      (n = ⟨-1, 0⟩ ∨ n = ⟨1, 0⟩ ∨ n = ⟨0, -1⟩ ∨ n = ⟨0, 1⟩)) := by
  constructor
  · have h1 : (swept_aabb_collision pos col g mv).isSome = true ↔
        (FVal.blt (exitTime pos col g mv) (entryTime pos col g mv) ||
          (FVal.blt (entryTimeX pos col g mv) (FVal.fin 0) &&
            FVal.blt (entryTimeY pos col g mv) (FVal.fin 0)) ||
          FVal.blt (FVal.fin 1) (entryTime pos col g mv)) = false := by
      unfold swept_aabb_collision
      cases hB : (FVal.blt (exitTime pos col g mv) (entryTime pos col g mv) ||
          (FVal.blt (entryTimeX pos col g mv) (FVal.fin 0) &&
            FVal.blt (entryTimeY pos col g mv) (FVal.fin 0)) ||
          FVal.blt (FVal.fin 1) (entryTime pos col g mv)) <;> simp [hB]
    rw [h1]
    simp only [FVal.ble]
    generalize FVal.blt (exitTime pos col g mv) (entryTime pos col g mv) = a
    generalize FVal.blt (entryTimeX pos col g mv) (FVal.fin 0) = b
    generalize FVal.blt (entryTimeY pos col g mv) (FVal.fin 0) = c
    generalize FVal.blt (FVal.fin 1) (entryTime pos col g mv) = d
    revert a b c d
    decide
  · intro t n h
    exact ⟨swept_time_mem h, swept_normal_cases h⟩

/-- Witness for C1 at a concrete input: the no-tunneling scenario of the
source's own test (entity 32×32 at the origin, thin wall at x = 40,
movement (100, 0)) reports a collision, and the reported time is a
rational in [0, 1]. -/
theorem C1_witness :
    (swept_aabb_collision ⟨0, 0⟩ ⟨32, 32, 0, 0⟩ ⟨40, 0, 5, 100⟩ ⟨100, 0⟩).isSome = true ∧
    (∃ q : ℚ, (FVal.fin (2/25) : FVal) = FVal.fin q ∧ 0 ≤ q ∧ q ≤ 1) := by
  have h := C1_swept_guard_and_outputs ⟨0, 0⟩ ⟨32, 32, 0, 0⟩ ⟨40, 0, 5, 100⟩ ⟨100, 0⟩
  refine ⟨h.1.mpr ?_, (h.2 (FVal.fin (2/25)) ⟨-1, 0⟩ ?_).1⟩ <;>
    norm_num [swept_aabb_collision, entryTime, exitTime, entryTimeX, entryTimeY,
      exitTimeX, exitTimeY, entryX, exitX, entryY, exitY, entityLeft, entityRight,
      entityTop, entityBottom, geoLeft, geoRight, geoTop, geoBottom, FVal.div,
      FVal.max, FVal.min, FVal.blt, FVal.ble, collisionNormal]

/-- Counterexample to C1 as stated: with zero vertical displacement and no
vertical overlap (entity 1×1 at the origin, target at (3, 5)), the swept
rectangle never touches the target, yet `swept_aabb_collision` reports a
collision at t = 1/2 — the zero-displacement axis is treated as always
overlapping. -/
theorem C1_counterexample :
    swept_aabb_collision ⟨0, 0⟩ ⟨1, 1, 0, 0⟩ ⟨3, 5, 1, 1⟩ ⟨4, 0⟩ =
      some (FVal.fin (1/2), ⟨-1, 0⟩) ∧
    ¬ sweptTouches ⟨0, 0⟩ ⟨1, 1, 0, 0⟩ ⟨3, 5, 1, 1⟩ ⟨4, 0⟩ := by
  constructor
  · norm_num [swept_aabb_collision, entryTime, exitTime, entryTimeX, entryTimeY,
      exitTimeX, exitTimeY, entryX, exitX, entryY, exitY, entityLeft, entityRight,
      entityTop, entityBottom, geoLeft, geoRight, geoTop, geoBottom, FVal.div,
      FVal.max, FVal.min, FVal.blt, collisionNormal]
  · rintro ⟨t, -, -, -, -, h5, -⟩
    simp [geoTop, entityBottom, entityTop] at h5

/-- C3: a displacement of 100 units in one step against a 5-unit-wide wall
lying across the entity's path is detected by the swept test (time of
impact 2/25, normal (-1, 0)), and the resolution step stops the entity
exactly at the wall's left edge (position 8 + collider width 32 = wall x
40) with the horizontal velocity zeroed: no tunneling. -/
theorem C3_no_tunneling :
    (6000 : ℚ) * (1/60) = 100 ∧
    swept_aabb_collision ⟨0, 0⟩ ⟨32, 32, 0, 0⟩ ⟨40, 0, 5, 100⟩ ⟨100, 0⟩ =
      some (FVal.fin (2/25), ⟨-1, 0⟩) ∧
    resolveStep ⟨0, 0⟩ ⟨6000, 0⟩ ⟨32, 32, 0, 0⟩ [⟨40, 0, 5, 100⟩] (1/60) =
      (⟨8, 0⟩, ⟨0, 0⟩) ∧
    (8 : ℚ) + 32 = 40 := by
  norm_num [swept_aabb_collision, entryTime, exitTime, entryTimeX, entryTimeY,
    exitTimeX, exitTimeY, entryX, exitX, entryY, exitY, entityLeft, entityRight,
    entityTop, entityBottom, geoLeft, geoRight, geoTop, geoBottom, FVal.div,
    FVal.max, FVal.min, FVal.blt, collisionNormal, resolveStep,
    earliestCollision, collisionFoldStep, FVal.toQ]

theorem collisionFold_isSome (pos : Position) (col : Collider) (mv : Vec2) :
    ∀ (geoms : List LevelGeometry) (b : FVal) (p : FVal × Vec2),
      (geoms.foldl (collisionFoldStep pos col mv) (b, some p)).2 ≠ none := by
  intro geoms
  induction geoms with
  | nil => intro b p; simp
  | cons g gs ih =>
      intro b p
      simp only [List.foldl_cons]
      unfold collisionFoldStep
      cases hs : swept_aabb_collision pos col g mv with
      | none => exact ih b p
      | some tn =>
          rcases tn with ⟨t, n⟩
          dsimp only
          split
          · exact ih t (t, n)
          · exact ih b p

theorem collisionFold_fst_ble (pos : Position) (col : Collider) (mv : Vec2) :
    ∀ (geoms : List LevelGeometry) (acc : FVal × Option (FVal × Vec2)),
      FVal.ble (geoms.foldl (collisionFoldStep pos col mv) acc).1 acc.1 = true := by
  intro geoms
  induction geoms with
  | nil => intro acc; exact FVal.ble_refl _
  | cons g gs ih =>
      intro acc
      simp only [List.foldl_cons]
      unfold collisionFoldStep
      cases hs : swept_aabb_collision pos col g mv with
      | none => exact ih acc
      | some tn =>
          rcases tn with ⟨t, n⟩
          dsimp only
          split
          · next hlt => exact FVal.ble_trans (ih (t, some (t, n))) (FVal.ble_of_blt hlt)
          · exact ih acc

theorem collisionFold_fst_min (pos : Position) (col : Collider) (mv : Vec2) :
    ∀ (geoms : List LevelGeometry) (acc : FVal × Option (FVal × Vec2))
      (g : LevelGeometry), g ∈ geoms → ∀ t n,
      swept_aabb_collision pos col g mv = some (t, n) →
      FVal.ble (geoms.foldl (collisionFoldStep pos col mv) acc).1 t = true := by
  intro geoms
  induction geoms with
  | nil => intro acc g hg; cases hg
  | cons g0 gs ih =>
      intro acc g hg t n hs
      rcases List.mem_cons.mp hg with rfl | hg2
      · simp only [List.foldl_cons]
        unfold collisionFoldStep
        rw [hs]
        dsimp only
        split
        · exact collisionFold_fst_ble pos col mv gs (t, some (t, n))
        · next hlt =>
            exact FVal.ble_trans (collisionFold_fst_ble pos col mv gs acc)
              (FVal.ble_of_not_blt (Bool.not_eq_true _ ▸ hlt))
      · simp only [List.foldl_cons]
        unfold collisionFoldStep
        cases hs0 : swept_aabb_collision pos col g0 mv with
        | none => exact ih acc g hg2 t n hs
        | some tn =>
            rcases tn with ⟨t0, n0⟩
            dsimp only
            split
            · exact ih (t0, some (t0, n0)) g hg2 t n hs
            · exact ih acc g hg2 t n hs

theorem collisionFold_snd_time (pos : Position) (col : Collider) (mv : Vec2) :
    ∀ (geoms : List LevelGeometry) (acc : FVal × Option (FVal × Vec2)),
      (∀ t0 n0, acc.2 = some (t0, n0) → t0 = acc.1) →
      ∀ t n, (geoms.foldl (collisionFoldStep pos col mv) acc).2 = some (t, n) →
        t = (geoms.foldl (collisionFoldStep pos col mv) acc).1 := by
  intro geoms
  induction geoms with
  | nil => intro acc hacc t n h; exact hacc t n h
  | cons g0 gs ih =>
      intro acc hacc t n h
      rcases hs : swept_aabb_collision pos col g0 mv with - | ⟨t0, n0⟩
      · simp only [List.foldl_cons, collisionFoldStep, hs] at h ⊢
        exact ih acc hacc t n h
      · simp only [List.foldl_cons, collisionFoldStep, hs] at h ⊢
        by_cases hlt : FVal.blt t0 acc.1 = true
        · rw [if_pos hlt] at h ⊢
          exact ih (t0, some (t0, n0)) (by intro t1 n1 h1; cases h1; rfl) t n h
        · rw [if_neg hlt] at h ⊢
          exact ih acc hacc t n h

theorem collisionFold_snd_source (pos : Position) (col : Collider) (mv : Vec2) :
    ∀ (geoms : List LevelGeometry) (acc : FVal × Option (FVal × Vec2))
      (t : FVal) (n : Vec2),
      (geoms.foldl (collisionFoldStep pos col mv) acc).2 = some (t, n) →
      acc.2 = some (t, n) ∨
        ∃ g ∈ geoms, swept_aabb_collision pos col g mv = some (t, n) ∧
          FVal.blt t acc.1 = true := by
  intro geoms
  induction geoms with
  | nil => intro acc t n h; exact Or.inl h
  | cons g0 gs ih =>
      intro acc t n h
      rcases hs : swept_aabb_collision pos col g0 mv with - | ⟨t0, n0⟩
      · simp only [List.foldl_cons, collisionFoldStep, hs] at h
        rcases ih acc t n h with h1 | ⟨g, hg, h2⟩
        · exact Or.inl h1
        · exact Or.inr ⟨g, List.mem_cons_of_mem g0 hg, h2⟩
      · simp only [List.foldl_cons, collisionFoldStep, hs] at h
        by_cases hlt : FVal.blt t0 acc.1 = true
        · rw [if_pos hlt] at h
          rcases ih (t0, some (t0, n0)) t n h with h1 | ⟨g, hg, h2, h3⟩
          · injection h1 with h1
            injection h1 with e1 e2
            subst e1
            subst e2
            exact Or.inr ⟨g0, List.mem_cons_self g0 gs, hs, hlt⟩
          · exact Or.inr ⟨g, List.mem_cons_of_mem g0 hg, h2,
              FVal.blt_trans h3 hlt⟩
        · rw [if_neg hlt] at h
          rcases ih acc t n h with h1 | ⟨g, hg, h2⟩
          · exact Or.inl h1
          · exact Or.inr ⟨g, List.mem_cons_of_mem g0 hg, h2⟩

theorem collisionFold_none (pos : Position) (col : Collider) (mv : Vec2) :
    ∀ (geoms : List LevelGeometry) (acc : FVal × Option (FVal × Vec2)),
      (geoms.foldl (collisionFoldStep pos col mv) acc).2 = none →
      geoms.foldl (collisionFoldStep pos col mv) acc = acc ∧
        ∀ g ∈ geoms, ∀ t n, swept_aabb_collision pos col g mv = some (t, n) →
          FVal.blt t acc.1 = false := by
  intro geoms
  induction geoms with
  | nil => intro acc _; exact ⟨rfl, by intro g hg; cases hg⟩
  | cons g0 gs ih =>
      intro acc h
      rcases hs : swept_aabb_collision pos col g0 mv with - | ⟨t0, n0⟩
      · simp only [List.foldl_cons, collisionFoldStep, hs] at h ⊢
        obtain ⟨heq, hall⟩ := ih acc h
        refine ⟨heq, ?_⟩
        intro g hg t n hsw
        rcases List.mem_cons.mp hg with rfl | hg2
        · rw [hs] at hsw; cases hsw
        · exact hall g hg2 t n hsw
      · simp only [List.foldl_cons, collisionFoldStep, hs] at h ⊢
        by_cases hlt : FVal.blt t0 acc.1 = true
        · rw [if_pos hlt] at h
          exact absurd h (collisionFold_isSome pos col mv gs t0 (t0, n0))
        · rw [if_neg hlt] at h ⊢
          obtain ⟨heq, hall⟩ := ih acc h
          refine ⟨heq, ?_⟩
          intro g hg t n hsw
          rcases List.mem_cons.mp hg with rfl | hg2
          · rw [hs] at hsw
            injection hsw with hsw
            injection hsw with e1 e2
            subst e1
            exact Bool.not_eq_true _ ▸ hlt
          · exact hall g hg2 t n hsw

/-- C2 (amended): one collision-resolution step moves the entity only as
far as the earliest time-of-impact among rectangles whose collision time
is strictly less than 1, then removes from the velocity its component
along that collision's contact normal (against a horizontal surface
normal the vertical velocity becomes exactly 0 and the horizontal
velocity is unchanged); when no rectangle yields a collision time
strictly below 1 — in particular when there is no collision at all —
the entity moves the full displacement with velocity unchanged.  (The
claim's unrestricted "valid collision" reading fails at a collision time
of exactly 1; see `C2_counterexample`.) -/
theorem C2_resolution (pos : Position) (vel : Velocity) (col : Collider)
    (geoms : List LevelGeometry) (dt : ℚ) :
    ((∀ g ∈ geoms, ∀ t n,
        swept_aabb_collision pos col g ⟨vel.x * dt, vel.y * dt⟩ = some (t, n) →
        FVal.blt t (FVal.fin 1) = false) →
      resolveStep pos vel col geoms dt =
        (⟨pos.x + vel.x * dt, pos.y + vel.y * dt⟩, vel)) ∧
    (∀ t n, earliestCollision pos col ⟨vel.x * dt, vel.y * dt⟩ geoms = some (t, n) →
      (∃ g ∈ geoms,
          swept_aabb_collision pos col g ⟨vel.x * dt, vel.y * dt⟩ = some (t, n) ∧
          FVal.blt t (FVal.fin 1) = true) ∧
      (∀ g ∈ geoms, ∀ t2 n2,
          swept_aabb_collision pos col g ⟨vel.x * dt, vel.y * dt⟩ = some (t2, n2) →
          FVal.ble t t2 = true) ∧
      resolveStep pos vel col geoms dt =
        (⟨pos.x + vel.x * dt * t.toQ, pos.y + vel.y * dt * t.toQ⟩,
          ⟨vel.x - (vel.x * n.x + vel.y * n.y) * n.x,
            vel.y - (vel.x * n.x + vel.y * n.y) * n.y⟩) ∧
      (n.x = 0 → n.y * n.y = 1 →
        vel.y - (vel.x * n.x + vel.y * n.y) * n.y = 0 ∧
        vel.x - (vel.x * n.x + vel.y * n.y) * n.x = vel.x)) := by
  constructor
  · intro hall
    have hnone : earliestCollision pos col ⟨vel.x * dt, vel.y * dt⟩ geoms = none := by
      cases heq : earliestCollision pos col ⟨vel.x * dt, vel.y * dt⟩ geoms with
      | none => rfl
      | some tn =>
          rcases tn with ⟨t, n⟩
          rcases collisionFold_snd_source pos col ⟨vel.x * dt, vel.y * dt⟩ geoms
            (FVal.fin 1, none) t n heq with h1 | ⟨g, hg, h2, h3⟩
          · cases h1
          · rw [hall g hg t n h2] at h3
            cases h3
    simp only [resolveStep, hnone]
  · intro t n heq
    have hsrc := collisionFold_snd_source pos col ⟨vel.x * dt, vel.y * dt⟩ geoms
      (FVal.fin 1, none) t n heq
    have htime := collisionFold_snd_time pos col ⟨vel.x * dt, vel.y * dt⟩ geoms
      (FVal.fin 1, none) (by intro t0 n0 h0; cases h0) t n heq
    refine ⟨?_, ?_, ?_, ?_⟩
    · rcases hsrc with h1 | ⟨g, hg, h2, h3⟩
      · cases h1
      · exact ⟨g, hg, h2, h3⟩
    · intro g hg t2 n2 hs2
      have hmin := collisionFold_fst_min pos col ⟨vel.x * dt, vel.y * dt⟩ geoms
        (FVal.fin 1, none) g hg t2 n2 hs2
      rw [← htime] at hmin
      exact hmin
    · simp only [resolveStep, heq]
    · intro h1 h2
      constructor
      · rw [h1]
        linear_combination (-vel.y) * h2
      · rw [h1]
        ring

/-- Witness for C2 at a concrete input: the thin-wall scenario.  The
earliest collision is at time 2/25 < 1 against the wall, and the
resolution step moves the entity exactly to the wall and zeroes the
velocity component into it. -/
theorem C2_witness :
    (∃ g ∈ ([⟨40, 0, 5, 100⟩] : List LevelGeometry),
        swept_aabb_collision ⟨0, 0⟩ ⟨32, 32, 0, 0⟩ g
            ⟨(6000 : ℚ) * (1/60), (0 : ℚ) * (1/60)⟩ =
          some (FVal.fin (2/25), ⟨-1, 0⟩) ∧
        FVal.blt (FVal.fin (2/25)) (FVal.fin 1) = true) ∧
    resolveStep ⟨0, 0⟩ ⟨6000, 0⟩ ⟨32, 32, 0, 0⟩ [⟨40, 0, 5, 100⟩] (1/60) =
      (⟨8, 0⟩, ⟨0, 0⟩) := by
  have h := (C2_resolution ⟨0, 0⟩ ⟨6000, 0⟩ ⟨32, 32, 0, 0⟩ [⟨40, 0, 5, 100⟩] (1/60)).2
    (FVal.fin (2/25)) ⟨-1, 0⟩ (by
      norm_num [earliestCollision, collisionFoldStep, swept_aabb_collision,
        entryTime, exitTime, entryTimeX, entryTimeY, exitTimeX, exitTimeY,
        entryX, exitX, entryY, exitY, entityLeft, entityRight, entityTop,
        entityBottom, geoLeft, geoRight, geoTop, geoBottom, FVal.div,
        FVal.max, FVal.min, FVal.blt, collisionNormal])
  refine ⟨h.1, ?_⟩
  rw [h.2.2.1]
  norm_num [FVal.toQ]

/-- Counterexample to C2 as stated: an entity falling so that it touches
the ground exactly at the end of the step's displacement (collision time
exactly 1, a valid collision per the swept test) is not resolved — the
entity moves the full displacement and the vertical velocity stays 60
instead of being zeroed against the contact normal (0, -1). -/
theorem C2_counterexample :
    swept_aabb_collision ⟨0, 0⟩ ⟨1, 1, 0, 0⟩ ⟨0, 2, 1, 1⟩
        ⟨(0 : ℚ) * (1/60), (60 : ℚ) * (1/60)⟩ =
      some (FVal.fin 1, ⟨0, -1⟩) ∧
    resolveStep ⟨0, 0⟩ ⟨0, 60⟩ ⟨1, 1, 0, 0⟩ [⟨0, 2, 1, 1⟩] (1/60) =
      (⟨0, 1⟩, ⟨0, 60⟩) ∧
    (60 : ℚ) - ((0 : ℚ) * 0 + 60 * (-1)) * (-1) = 0 ∧
    (60 : ℚ) ≠ 0 := by
  norm_num [resolveStep, earliestCollision, collisionFoldStep,
    swept_aabb_collision, entryTime, exitTime, entryTimeX, entryTimeY,
    exitTimeX, exitTimeY, entryX, exitX, entryY, exitY, entityLeft,
    entityRight, entityTop, entityBottom, geoLeft, geoRight, geoTop,
    geoBottom, FVal.div, FVal.max, FVal.min, FVal.blt, collisionNormal,
    FVal.toQ]

/-- One application of a wall-state-mutating system preserves the
never-clinging, zero-normal state: with a zero wall normal no wall is
ever "detected", so `update_wall_cling_state` always takes a branch that
clears the cling flag and leaves the normal untouched, and the wall-jump
branch of `apply_jump_system` is unreachable. -/
theorem wallAction_preserves (ws : WallClimbState)
    (h1 : ws.is_clinging = false) (h2 : ws.wall_normal = ⟨0, 0⟩)
    (a : WallAction) :
    (applyWallAction ws a).is_clinging = false ∧
      (applyWallAction ws a).wall_normal = ⟨0, 0⟩ := by
  cases a with
  | updateCling intent abilities grounded pos col geoms =>
      simp [applyWallAction, update_wall_cling_state, h1, h2]
  | jump intent vel grounded abilities =>
      simp [applyWallAction, applyJumpStep, h1, h2]

/-- C4: starting from the default `WallClimbState` (zero wall normal, not
clinging), after any sequence of applications of the only two systems that
mutate `WallClimbState`, the wall normal is still the zero vector and the
cling flag is still false — consequently wall-climb movement never alters
the velocity. -/
theorem C4_wall_normal_never_assigned (acts : List WallAction) :
    (acts.foldl applyWallAction WallClimbState.defaultState).wall_normal = ⟨0, 0⟩ ∧
    (acts.foldl applyWallAction WallClimbState.defaultState).is_clinging = false ∧
    (∀ intent vel,
      applyWallClimbMovement intent
        (acts.foldl applyWallAction WallClimbState.defaultState) vel = vel) := by
  have key : ∀ (l : List WallAction) (ws : WallClimbState),
      ws.is_clinging = false → ws.wall_normal = ⟨0, 0⟩ →
      (l.foldl applyWallAction ws).is_clinging = false ∧
        (l.foldl applyWallAction ws).wall_normal = ⟨0, 0⟩ := by
    intro l
    induction l with
    | nil => intro ws hc hn; exact ⟨hc, hn⟩
    | cons a rest ih =>
        intro ws hc hn
        obtain ⟨hc2, hn2⟩ := wallAction_preserves ws hc hn a
        exact ih (applyWallAction ws a) hc2 hn2
  obtain ⟨hc, hn⟩ := key acts WallClimbState.defaultState rfl rfl
  refine ⟨hn, hc, ?_⟩
  intro intent vel
  simp [applyWallClimbMovement, hc]

/-- C5 (evaluating the gravity stage at the failing input): `apply_gravity`
reads only the velocity and the grounded state — it takes no
`WallClimbState` input at all — so an airborne entity gains
`GRAVITY * dt = 980/60 = 49/3` of downward velocity whether or not it is
wall-clinging, and that gain is nonzero. -/
theorem C5_gravity_ignores_cling :
    apply_gravity ⟨0, 0⟩ ⟨false, ⟨0, 0⟩⟩ (1/60) = ⟨0, 49/3⟩ ∧
    (49 : ℚ) / 3 ≠ 0 := by
  norm_num [apply_gravity, GRAVITY]

/-- C6: while clinging with jump pressed, the jump stage sets the
horizontal velocity to `wall_normal.x × 250`, the vertical velocity to the
fixed upward `-450`, clears the cling flag, and ignores the grounded-jump
path entirely (the result does not depend on the grounded state or the
ability set, and a wall normal pointing right yields horizontal velocity
exactly `+250`). -/
theorem C6_wall_jump (intent : PlayerIntent) (vel : Velocity)
    (grounded : GroundedState) (abilities : AbilitySet) (ws : WallClimbState)
    (hc : ws.is_clinging = true) (hj : intent.jump_pressed = true) :
    (applyJumpStep intent vel grounded abilities ws).1 =
      ⟨ws.wall_normal.x * WALL_JUMP_HORIZONTAL_VELOCITY,
        WALL_JUMP_VERTICAL_VELOCITY⟩ ∧
    (applyJumpStep intent vel grounded abilities ws).2.is_clinging = false ∧
    (ws.wall_normal = ⟨1, 0⟩ →
      (applyJumpStep intent vel grounded abilities ws).1 = ⟨250, -450⟩ ∧
      0 < (applyJumpStep intent vel grounded abilities ws).1.x) ∧
    (∀ (grounded2 : GroundedState) (abilities2 : AbilitySet),
      applyJumpStep intent vel grounded2 abilities2 ws =
        applyJumpStep intent vel grounded abilities ws) := by
  refine ⟨?_, ?_, ?_, ?_⟩
  · simp [applyJumpStep, hc, hj]
  · simp [applyJumpStep, hc, hj]
  · intro hn
    constructor
    · simp [applyJumpStep, hc, hj, hn, WALL_JUMP_HORIZONTAL_VELOCITY,
        WALL_JUMP_VERTICAL_VELOCITY]
    · simp [applyJumpStep, hc, hj, hn, WALL_JUMP_HORIZONTAL_VELOCITY]
  · intro grounded2 abilities2
    simp [applyJumpStep, hc, hj]

/-- Witness for C6: a concrete clinging player (wall on the left, normal
pointing right) pressing jump gets velocity (250, -450) and leaves the
cling state, even while grounded with the high-jump ability unlocked. -/
theorem C6_witness :
    (applyJumpStep ⟨false, false, true, false⟩ ⟨7, 9⟩ ⟨true, ⟨0, -1⟩⟩
        ⟨[Ability.HighJump]⟩ ⟨true, ⟨1, 0⟩⟩).1 = ⟨250, -450⟩ ∧
    (applyJumpStep ⟨false, false, true, false⟩ ⟨7, 9⟩ ⟨true, ⟨0, -1⟩⟩
        ⟨[Ability.HighJump]⟩ ⟨true, ⟨1, 0⟩⟩).2.is_clinging = false := by
  have h := C6_wall_jump ⟨false, false, true, false⟩ ⟨7, 9⟩ ⟨true, ⟨0, -1⟩⟩
    ⟨[Ability.HighJump]⟩ ⟨true, ⟨1, 0⟩⟩ rfl rfl
  exact ⟨(h.2.2.1 rfl).1, h.2.1⟩

/-- C7 (evaluating the swing-attach operation at the failing input): an
airborne player with the swing ability pressing the attach input, whose
nearest in-range swing point is at distance zero, is given a `SwingState`
whose rope length is zero — the attachment is not rejected. -/
theorem C7_zero_distance_attach :
    attach_to_swing_system ⟨[Ability.Swing]⟩ ⟨false, false, true, false⟩
        ⟨false, ⟨0, 0⟩⟩ (some (⟨50, 50⟩, 0)) =
      some ⟨⟨50, 50⟩, 0, 0⟩ ∧
    (⟨⟨50, 50⟩, 0, 0⟩ : SwingState).rope_length = 0 := by
  constructor
  · rfl
  · rfl

/-- C8: with no steering input, one pendulum integration step first adds
`(G / rope length) · sin(current angle) · dt` to the angular velocity and
then multiplies by the damping factor; the damping strictly reduces the
magnitude of the (pre-damping) angular velocity without flipping its
sign whenever it is nonzero; and at a 45° swing angle the angular
acceleration is exactly `(G / L) · sin(45°) = (G / L) · (√2 / 2)`. -/
theorem C8_pendulum_step (pos : RModel.Vec2) (s : RModel.SwingState)
    (intent : PlayerIntent) (dt : ℝ)
    (hl : intent.move_left = false) (hr : intent.move_right = false) :
    ((RModel.update_swing_physics_system pos s intent dt).2.2.angular_velocity =
      (s.angular_velocity +
        (980 / s.rope_length) * Real.sin (RModel.swingAngle pos s) * dt) *
        RModel.SWING_DAMPING) ∧
    (s.angular_velocity +
        (980 / s.rope_length) * Real.sin (RModel.swingAngle pos s) * dt ≠ 0 →
      |(RModel.update_swing_physics_system pos s intent dt).2.2.angular_velocity| <
        |s.angular_velocity +
          (980 / s.rope_length) * Real.sin (RModel.swingAngle pos s) * dt| ∧
      (0 < s.angular_velocity +
          (980 / s.rope_length) * Real.sin (RModel.swingAngle pos s) * dt →
        0 < (RModel.update_swing_physics_system pos s intent dt).2.2.angular_velocity) ∧
      (s.angular_velocity +
          (980 / s.rope_length) * Real.sin (RModel.swingAngle pos s) * dt < 0 →
        (RModel.update_swing_physics_system pos s intent dt).2.2.angular_velocity < 0)) ∧
    (0 < pos.x - s.anchor_point.x →
      pos.x - s.anchor_point.x = pos.y - s.anchor_point.y →
      (980 / s.rope_length) * Real.sin (RModel.swingAngle pos s) =
        (980 / s.rope_length) * (Real.sqrt 2 / 2)) := by
  have hw : (RModel.update_swing_physics_system pos s intent dt).2.2.angular_velocity =
      (s.angular_velocity +
        (980 / s.rope_length) * Real.sin (RModel.swingAngle pos s) * dt) *
        RModel.SWING_DAMPING := by
    simp [RModel.update_swing_physics_system, hl, hr]
  refine ⟨hw, ?_, ?_⟩
  · intro hp
    rw [hw]
    have habs : |(98 : ℝ) / 100| = 98 / 100 := abs_of_pos (by norm_num)
    refine ⟨?_, ?_, ?_⟩
    · calc |(s.angular_velocity +
            (980 / s.rope_length) * Real.sin (RModel.swingAngle pos s) * dt) *
            RModel.SWING_DAMPING|
          = |s.angular_velocity +
              (980 / s.rope_length) * Real.sin (RModel.swingAngle pos s) * dt| *
              (98 / 100) := by
            rw [abs_mul, RModel.SWING_DAMPING, habs]
        _ < |s.angular_velocity +
              (980 / s.rope_length) * Real.sin (RModel.swingAngle pos s) * dt| := by
            have hpos := abs_pos.mpr hp
            nlinarith
    · intro h
      exact mul_pos h (by norm_num [RModel.SWING_DAMPING])
    · intro h
      exact mul_neg_of_neg_of_pos h (by norm_num [RModel.SWING_DAMPING])
  · intro hdx hdiag
    have hangle : RModel.swingAngle pos s = Real.pi / 4 := by
      unfold RModel.swingAngle RModel.atan2
      rw [if_pos hdx, ← hdiag, div_self (ne_of_gt hdx), Real.arctan_one]
    rw [hangle, Real.sin_pi_div_four]

/-- Witness for C8 at a concrete input: anchor at the origin, entity at
(1, 1) (a 45° swing angle), rope length 100, no steering input. -/
theorem C8_witness :
    ((980 : ℝ) / (100 : ℝ)) *
        Real.sin (RModel.swingAngle ⟨1, 1⟩ ⟨⟨0, 0⟩, 100, 1⟩) =
      (980 / 100) * (Real.sqrt 2 / 2) ∧
    (RModel.update_swing_physics_system ⟨1, 1⟩ ⟨⟨0, 0⟩, 100, 1⟩
        ⟨false, false, false, false⟩ 1).2.2.angular_velocity =
      (1 + (980 / 100) * Real.sin (RModel.swingAngle ⟨1, 1⟩ ⟨⟨0, 0⟩, 100, 1⟩) * 1) *
        RModel.SWING_DAMPING := by
  have h := C8_pendulum_step ⟨1, 1⟩ ⟨⟨0, 0⟩, 100, 1⟩ ⟨false, false, false, false⟩ 1
    rfl rfl
  exact ⟨h.2.2 (by norm_num) (by norm_num), h.1⟩

/-- C9: for a grounded entity, the slope stage leaves the velocity
unchanged when the slope angle is below the flat threshold 1/10 rad;
otherwise it adds the sliding acceleration `G · sin(slope angle)` along
the slope tangent `(-normal.y, normal.x)` scaled by the timestep (plus a
friction term along the same tangent).  The code's
`slope_angle = atan2(normal.x, -normal.y)` really is the angle between
the contact normal and straight-up: for every tilt `φ` in (-π/2, π/2) the
normal `(sin φ, -cos φ)` yields slope angle exactly `φ`; in particular
the 45° slope normal `(√2/2, -√2/2)` yields slope angle π/4, sliding
acceleration `G · sin(45°) = 980 · (√2/2)`, and is not treated as flat. -/
theorem C9_slope_physics (vel : RModel.Vec2) (gs : RModel.GroundedState)
    (dt : ℝ) (hg : gs.is_grounded = true) :
    (|RModel.slopeAngle gs.ground_normal| < (1/10 : ℝ) →
      RModel.apply_slope_physics vel gs dt = vel) ∧
    (¬ |RModel.slopeAngle gs.ground_normal| < (1/10 : ℝ) →
      ∃ friction : ℝ,
        RModel.apply_slope_physics vel gs dt =
          ⟨vel.x + 980 * Real.sin (RModel.slopeAngle gs.ground_normal) *
              (-gs.ground_normal.y) * dt + friction * (-gs.ground_normal.y) * dt,
            vel.y + 980 * Real.sin (RModel.slopeAngle gs.ground_normal) *
              gs.ground_normal.x * dt + friction * gs.ground_normal.x * dt⟩) ∧
    (∀ φ : ℝ, -(Real.pi / 2) < φ → φ < Real.pi / 2 →
      RModel.slopeAngle ⟨Real.sin φ, -Real.cos φ⟩ = φ) ∧
    (gs.ground_normal = ⟨Real.sqrt 2 / 2, -(Real.sqrt 2 / 2)⟩ →
      RModel.slopeAngle gs.ground_normal = Real.pi / 4 ∧
      980 * Real.sin (RModel.slopeAngle gs.ground_normal) =
        980 * (Real.sqrt 2 / 2) ∧
      ¬ |RModel.slopeAngle gs.ground_normal| < (1/10 : ℝ)) := by
  have hphi : ∀ φ : ℝ, -(Real.pi / 2) < φ → φ < Real.pi / 2 →
      RModel.slopeAngle ⟨Real.sin φ, -Real.cos φ⟩ = φ := by
    intro φ h1 h2
    have hcos : 0 < Real.cos φ := Real.cos_pos_of_mem_Ioo ⟨h1, h2⟩
    unfold RModel.slopeAngle RModel.atan2
    simp only [neg_neg]
    rw [if_pos hcos, ← Real.tan_eq_sin_div_cos, Real.arctan_tan h1 h2]
  refine ⟨?_, ?_, hphi, ?_⟩
  · intro hflat
    unfold RModel.apply_slope_physics
    rw [hg]
    rw [if_neg (by simp), if_pos hflat]
  · intro hflat
    refine ⟨-(((vel.x + 980 * Real.sin (RModel.slopeAngle gs.ground_normal) *
        (-gs.ground_normal.y) * dt) * (-gs.ground_normal.y) +
        (vel.y + 980 * Real.sin (RModel.slopeAngle gs.ground_normal) *
          gs.ground_normal.x * dt) * gs.ground_normal.x) * (3/10)), ?_⟩
    unfold RModel.apply_slope_physics
    rw [hg]
    rw [if_neg (by simp), if_neg hflat]
    dsimp only
    simp only [RModel.Vec2.mk.injEq]
    constructor <;> ring
  · intro hn
    have hb1 : -(Real.pi / 2) < Real.pi / 4 := by
      have := Real.pi_pos
      linarith
    have hb2 : Real.pi / 4 < Real.pi / 2 := by
      have := Real.pi_pos
      linarith
    have heq : (⟨Real.sqrt 2 / 2, -(Real.sqrt 2 / 2)⟩ : RModel.Vec2) =
        ⟨Real.sin (Real.pi / 4), -Real.cos (Real.pi / 4)⟩ := by
      rw [Real.sin_pi_div_four, Real.cos_pi_div_four]
    have hangle : RModel.slopeAngle gs.ground_normal = Real.pi / 4 := by
      rw [hn, heq, hphi (Real.pi / 4) hb1 hb2]
    have hpi3 := Real.pi_gt_three
    refine ⟨hangle, ?_, ?_⟩
    · rw [hangle, Real.sin_pi_div_four]
    · rw [hangle, abs_of_pos (by linarith)]
      intro hcon
      linarith

/-- Witness for C9 at a concrete input: a grounded entity on flat ground
(normal (0, -1), slope angle 0) keeps its velocity unchanged. -/
theorem C9_witness :
    RModel.apply_slope_physics ⟨5, 3⟩ ⟨true, ⟨0, -1⟩⟩ (1/60) = ⟨5, 3⟩ := by
  have h := C9_slope_physics ⟨5, 3⟩ ⟨true, ⟨0, -1⟩⟩ (1/60) rfl
  apply h.1
  have hzero : RModel.slopeAngle (⟨0, -1⟩ : RModel.Vec2) = 0 := by
    unfold RModel.slopeAngle RModel.atan2
    norm_num [Real.arctan_zero]
  show |RModel.slopeAngle (⟨0, -1⟩ : RModel.Vec2)| < (1/10 : ℝ)
  rw [hzero]
  norm_num

/-- The grounding loop only ever records the normal (0, -1): the probe
moves downward, so the swept normal is vertical, and the `normal.y < -0.5`
filter keeps only the upward-pointing one. -/
theorem findGroundNormal_some (pos : Position) (col : Collider) :
    ∀ (geoms : List LevelGeometry) (n : Vec2),
      findGroundNormal pos col geoms = some n → n = ⟨0, -1⟩ := by
  intro geoms
  induction geoms with
  | nil => intro n h; cases h
  | cons g rest ih =>
      intro n h
      rcases hs : swept_aabb_collision pos col g groundCheckMovement with - | ⟨t, nn⟩
      · simp only [findGroundNormal, hs] at h
        exact ih n h
      · simp only [findGroundNormal, hs] at h
        split at h
        · next hcond =>
            injection h with h
            subst h
            obtain ⟨-, hy⟩ := hcond
            rcases swept_normal_cases hs with h4 | h4 | h4 | h4 <;>
              rw [h4] at hy ⊢ <;> first
              | rfl
              | (exfalso; norm_num at hy)
        · exact ih n h

/-- C10: after the grounded-state recomputation, the contact normal is the
zero vector exactly when `is_grounded` is false, and when grounded the
normal is the unit vector (0, -1).  The classifier takes no previous
`GroundedState` input: the state is rebuilt from position, collider and
geometry alone every step. -/
theorem C10_grounded_invariant (pos : Position) (col : Collider)
    (geoms : List LevelGeometry) :
    ((update_grounded_state pos col geoms).ground_normal = ⟨0, 0⟩ ↔
      (update_grounded_state pos col geoms).is_grounded = false) ∧
    ((update_grounded_state pos col geoms).is_grounded = true →
      (update_grounded_state pos col geoms).ground_normal = ⟨0, -1⟩ ∧
      (update_grounded_state pos col geoms).ground_normal.x ^ 2 +
        (update_grounded_state pos col geoms).ground_normal.y ^ 2 = 1) := by
  cases hf : findGroundNormal pos col geoms with
  | none => simp [update_grounded_state, hf]
  | some n =>
      have hn := findGroundNormal_some pos col geoms n hf
      subst hn
      constructor
      · simp only [update_grounded_state, hf]
        constructor
        · intro hcon
          injection hcon with hx hy
          norm_num at hy
        · intro hcon
          cases hcon
      · intro h2
        simp only [update_grounded_state, hf]
        norm_num

/-- Witness for C10 at a concrete input: an entity resting exactly on a
ground slab is classified as grounded with the unit normal (0, -1). -/
theorem C10_witness :
    (update_grounded_state ⟨0, 0⟩ ⟨32, 32, 0, 0⟩ [⟨0, 32, 200, 32⟩]).ground_normal =
      ⟨0, -1⟩ ∧
    (update_grounded_state ⟨0, 0⟩ ⟨32, 32, 0, 0⟩ [⟨0, 32, 200, 32⟩]).ground_normal.x ^ 2 +
      (update_grounded_state ⟨0, 0⟩ ⟨32, 32, 0, 0⟩ [⟨0, 32, 200, 32⟩]).ground_normal.y ^ 2 = 1 := by
  have h := C10_grounded_invariant ⟨0, 0⟩ ⟨32, 32, 0, 0⟩ [⟨0, 32, 200, 32⟩]
  exact h.2 (by
    norm_num [update_grounded_state, findGroundNormal, groundCheckMovement,
      GROUND_CHECK_EPSILON, swept_aabb_collision, entryTime, exitTime,
      entryTimeX, entryTimeY, exitTimeX, exitTimeY, entryX, exitX, entryY,
      exitY, entityLeft, entityRight, entityTop, entityBottom, geoLeft,
      geoRight, geoTop, geoBottom, FVal.div, FVal.max, FVal.min, FVal.blt,
      collisionNormal])

end Rustman
